import Mathlib

/-!
Verification of the Binance announcement WebSocket monitor
(src/main.py, src/config.py, src/ntfy.py) against its specification.

The Python program is shallowly embedded: pure functions become Lean
functions, the mutable field `self.last_announcement_id` becomes explicit
state passing, I/O calls become entries of an explicit effect trace, and
Python exceptions become `Except` / an explicit `PyResult` outcome.  The
standard-library boundary (`json.loads`, `hmac`, `hashlib`, `datetime`,
`urllib.parse`) is embedded by faithful Lean implementations of the exact
stdlib behaviour the program exercises (HMAC-SHA256, UTF-8 encoding,
percent-encoding, epoch formatting), except that the outcome of the
external JSON text parser is passed in as an already-parsed value or a
parse failure.  Python values relevant to the program (JSON scalars) are
modelled by `PyPrim`; `logger.debug` / `logger.info` calls are not tracked
in effect traces, only `logger.error` and the externally visible sink
operations are.
-/

/-- Python primitive values as they occur in the decoded JSON messages:
`None` (also the image of JSON `null`), strings, integers and booleans. -/
inductive PyPrim where
  | none : PyPrim
  | str : String → PyPrim
  | int : Int → PyPrim
  | bool : Bool → PyPrim
deriving DecidableEq, Repr

/-- Python `==` on primitive values.  Mirrors CPython semantics, including
`True == 1` and `False == 0` (bool is an int subclass). -/
def pyPrimEq : PyPrim → PyPrim → Bool
  | PyPrim.none, PyPrim.none => true
  | PyPrim.str a, PyPrim.str b => a == b
  | PyPrim.int a, PyPrim.int b => a == b
  | PyPrim.bool a, PyPrim.bool b => a == b
  | PyPrim.int a, PyPrim.bool b => a == (if b then (1 : Int) else 0)
  | PyPrim.bool a, PyPrim.int b => (if a then (1 : Int) else 0) == b
  | _, _ => false

/-- Python `str(v)` on the primitive values. -/
def pyStr : PyPrim → String
  | PyPrim.none => "None"
  | PyPrim.str s => s
  | PyPrim.int n => toString n
  | PyPrim.bool b => if b then "True" else "False"

/-- One step of Python `str.replace(pat, rep)`: scan left to right,
replacing each non-overlapping occurrence of `pat`; `fuel` bounds the
recursion (one unit per consumed character suffices). -/
def replaceAllFuel (pat rep : List Char) : Nat → List Char → List Char
  | 0, s => s
  | _ + 1, [] => []
  | fuel + 1, c :: rest =>
    if pat.isPrefixOf (c :: rest) then
      rep ++ replaceAllFuel pat rep fuel (rest.drop (pat.length - 1))
    else
      c :: replaceAllFuel pat rep fuel rest

/-- Python `s.replace(pat, rep)` for a non-empty pattern. -/
def pyReplace (s pat rep : String) : String :=
  String.mk (replaceAllFuel pat.data rep.data s.data.length s.data)

/-- The first boilerplate phrase removed by `clean_announcement_body`
(src/main.py line 133). -/
def opening_text : String := "This is a general announcement."

/-- The second boilerplate phrase removed by `clean_announcement_body`
(src/main.py line 134). -/
def opening_text_2 : String :=
  "Products and services referred to here may not be available in your region."

/-- Embedding of `clean_announcement_body` (src/main.py lines 127-138) on an
actual string argument: empty (falsy) strings are returned as `""`, and
otherwise the two fixed phrases are removed by literal `str.replace`. -/
def clean_announcement_body (body : String) : String :=
  if body == "" then ""
  else pyReplace (pyReplace body opening_text "") opening_text_2 ""

/-- UTF-8 encoding of a Unicode code point, as the Python UTF-8 string encoder
produces it for every valid scalar value (the only values a Lean `Char`
can hold). -/
def utf8enc (n : Nat) : List Nat :=
  if n < 128 then [n]
  else if n < 2048 then [192 + n / 64, 128 + n % 64]
  else if n < 65536 then [224 + n / 4096, 128 + n / 64 % 64, 128 + n % 64]
  else [240 + n / 262144, 128 + n / 4096 % 64, 128 + n / 64 % 64, 128 + n % 64]

/-- UTF-8 byte sequence of a character list. -/
def utf8Chars : List Char → List Nat
  | [] => []
  | c :: cs => utf8enc c.toNat ++ utf8Chars cs

/-- UTF-8 byte sequence of a string (the Python UTF-8 encoding of s). -/
def strBytes (s : String) : List Nat := utf8Chars s.data

/-- Strict lexicographic (byte-wise) order on byte sequences. -/
inductive LexLt : List Nat → List Nat → Prop where
  | nil {b : Nat} {bs : List Nat} : LexLt [] (b :: bs)
  | head {a b : Nat} {as bs : List Nat} : a < b → LexLt (a :: as) (b :: bs)
  | tail {a : Nat} {as bs : List Nat} : LexLt as bs → LexLt (a :: as) (a :: bs)

/-- Byte-wise ascending order on strings: the UTF-8 encoding of the first
is lexicographically below (or equal to) that of the second. -/
def byteLe (a b : String) : Prop :=
  LexLt (strBytes a) (strBytes b) ∨ strBytes a = strBytes b

/-- Python string comparison `<` on character lists: strict lexicographic
comparison of code points, with a proper prefix below its extensions. -/
def charsLt : List Char → List Char → Bool
  | [], [] => false
  | [], _ :: _ => true
  | _ :: _, [] => false
  | a :: as, b :: bs =>
    if a < b then true
    else if a = b then charsLt as bs
    else false

/-- Python `<` on strings. -/
def pyStrLt (a b : String) : Bool := charsLt a.data b.data

/-- Python `<=` on strings. -/
def pyStrLe (a b : String) : Bool := pyStrLt a b || a == b

/-- Python tuple comparison `<=` on pairs of strings, as used by
`sorted(params.items())` on the stringified parameter items
(src/main.py line 86): first components compared first, ties broken by
the second components. -/
def pairLeB (a b : String × String) : Bool :=
  if pyStrLt a.1 b.1 then true
  else if a.1 == b.1 then pyStrLe a.2 b.2
  else false

/-- The relation of `pairLeB`, decidable, for `List.insertionSort`. -/
def pairLeR (a b : String × String) : Prop := pairLeB a b = true

instance : DecidableRel pairLeR := fun a b =>
  inferInstanceAs (Decidable (pairLeB a b = true))

/-- Truncation to a 32-bit word. -/
def w32 (n : Nat) : Nat := n % 4294967296

/-- 32-bit right rotation. -/
def rotr32 (k x : Nat) : Nat := w32 ((x >>> k) ||| (x <<< (32 - k)))

def shaCh (x y z : Nat) : Nat := (x &&& y) ^^^ ((x ^^^ 4294967295) &&& z)

def shaMaj (x y z : Nat) : Nat := (x &&& y) ^^^ (x &&& z) ^^^ (y &&& z)

def bsig0 (x : Nat) : Nat := rotr32 2 x ^^^ rotr32 13 x ^^^ rotr32 22 x

def bsig1 (x : Nat) : Nat := rotr32 6 x ^^^ rotr32 11 x ^^^ rotr32 25 x

def ssig0 (x : Nat) : Nat := rotr32 7 x ^^^ rotr32 18 x ^^^ (x >>> 3)

def ssig1 (x : Nat) : Nat := rotr32 17 x ^^^ rotr32 19 x ^^^ (x >>> 10)

/-- The SHA-256 round constants (FIPS 180-4). -/
def sha256K : List Nat :=
  [1116352408, 1899447441, 3049323471, 3921009573, 961987163,
   1508970993, 2453635748, 2870763221, 3624381080, 310598401,
   607225278, 1426881987, 1925078388, 2162078206, 2614888103,
   3248222580, 3835390401, 4022224774, 264347078, 604807628,
   770255983, 1249150122, 1555081692, 1996064986, 2554220882,
   2821834349, 2952996808, 3210313671, 3336571891, 3584528711,
   113926993, 338241895, 666307205, 773529912, 1294757372,
   1396182291, 1695183700, 1986661051, 2177026350, 2456956037,
   2730485921, 2820302411, 3259730800, 3345764771, 3516065817,
   3600352804, 4094571909, 275423344, 430227734, 506948616,
   659060556, 883997877, 958139571, 1322822218, 1537002063,
   1747873779, 1955562222, 2024104815, 2227730452, 2361852424,
   2428436474, 2756734187, 3204031479, 3329325298]

/-- An eight-word SHA-256 chaining state. -/
structure Sha256State where
  h0 : Nat
  h1 : Nat
  h2 : Nat
  h3 : Nat
  h4 : Nat
  h5 : Nat
  h6 : Nat
  h7 : Nat
deriving Repr, DecidableEq

/-- The SHA-256 initial state (FIPS 180-4). -/
def sha256init : Sha256State :=
  ⟨1779033703, 3144134277, 1013904242, 2773480762,
   1359893119, 2600822924, 528734635, 1541459225⟩

/-- Big-endian bytes of a 32-bit word. -/
def word2bytes (w : Nat) : List Nat :=
  [(w >>> 24) % 256, (w >>> 16) % 256, (w >>> 8) % 256, w % 256]

/-- Big-endian 32-bit word from four bytes. -/
def bytesToWord (a b c d : Nat) : Nat :=
  a * 16777216 + b * 65536 + c * 256 + d

/-- Big-endian bytes of the 64-bit message bit length. -/
def len8 (bitLen : Nat) : List Nat :=
  [(bitLen >>> 56) % 256, (bitLen >>> 48) % 256, (bitLen >>> 40) % 256,
   (bitLen >>> 32) % 256, (bitLen >>> 24) % 256, (bitLen >>> 16) % 256,
   (bitLen >>> 8) % 256, bitLen % 256]

/-- SHA-256 padding: a 0x80 byte, zeros to 56 mod 64, then the bit length. -/
def padMsg (msg : List Nat) : List Nat :=
  msg ++ [128] ++ List.replicate ((64 - (msg.length + 9) % 64) % 64) 0 ++
    len8 (8 * msg.length)

/-- Split a byte list into 64-byte blocks (`fuel` bounds the recursion; one
unit per block suffices since every step consumes at least one byte). -/
def toBlocksFuel : Nat → List Nat → List (List Nat)
  | 0, _ => []
  | _ + 1, [] => []
  | fuel + 1, l => l.take 64 :: toBlocksFuel fuel (l.drop 64)

/-- The sixteen message-schedule words of one block. -/
def blockWords (bl : List Nat) : List Nat :=
  (List.range 16).map fun i =>
    bytesToWord (bl.getD (4 * i) 0) (bl.getD (4 * i + 1) 0)
      (bl.getD (4 * i + 2) 0) (bl.getD (4 * i + 3) 0)

/-- Extend the message schedule from 16 to 64 words. -/
def extendWords (ws : List Nat) : List Nat :=
  (List.range 48).foldl
    (fun w _ =>
      w ++ [w32 (ssig1 (w.getD (w.length - 2) 0) + w.getD (w.length - 7) 0 +
        ssig0 (w.getD (w.length - 15) 0) + w.getD (w.length - 16) 0)])
    ws

/-- One SHA-256 compression round on the working variables. -/
def sha256Round (s : Sha256State) (kw : Nat × Nat) : Sha256State :=
  let t1 := w32 (s.h7 + bsig1 s.h4 + shaCh s.h4 s.h5 s.h6 + kw.2 + kw.1)
  let t2 := w32 (bsig0 s.h0 + shaMaj s.h0 s.h1 s.h2)
  ⟨w32 (t1 + t2), s.h0, s.h1, s.h2, w32 (s.h3 + t1), s.h4, s.h5, s.h6⟩

/-- Compress one 64-byte block into the chaining state. -/
def compressBlock (s : Sha256State) (bl : List Nat) : Sha256State :=
  let ws := extendWords (blockWords bl)
  let f := (ws.zip sha256K).foldl sha256Round s
  ⟨w32 (s.h0 + f.h0), w32 (s.h1 + f.h1), w32 (s.h2 + f.h2), w32 (s.h3 + f.h3),
   w32 (s.h4 + f.h4), w32 (s.h5 + f.h5), w32 (s.h6 + f.h6), w32 (s.h7 + f.h7)⟩

/-- Digest bytes of a final state. -/
def digestBytes (s : Sha256State) : List Nat :=
  word2bytes s.h0 ++ word2bytes s.h1 ++ word2bytes s.h2 ++ word2bytes s.h3 ++
    word2bytes s.h4 ++ word2bytes s.h5 ++ word2bytes s.h6 ++ word2bytes s.h7

/-- SHA-256 of a byte list (the `hashlib.sha256` the program calls). -/
def sha256 (msg : List Nat) : List Nat :=
  let padded := padMsg msg
  digestBytes ((toBlocksFuel padded.length padded).foldl compressBlock sha256init)

/-- HMAC-SHA256 (RFC 2104), the `hmac.new(key, msg, hashlib.sha256)` the
program calls: keys longer than the 64-byte block are hashed first, the
key is zero-padded to the block size, and the inner/outer pads are
XOR masks 0x36 and 0x5c. -/
def hmacSha256 (key msg : List Nat) : List Nat :=
  let k0 := if 64 < key.length then sha256 key else key
  let kp := k0 ++ List.replicate (64 - k0.length) 0
  sha256 ((kp.map fun b => b ^^^ 92) ++ sha256 ((kp.map fun b => b ^^^ 54) ++ msg))

/-- The sixteen lowercase hexadecimal digit characters. -/
def hexChars : List Char := "0123456789abcdef".data

/-- Lowercase hex digit of a value below 16. -/
def hexDig (n : Nat) : Char := hexChars.getD n '0'

/-- Two lowercase hex characters per byte, in order. -/
def hexCharsOf : List Nat → List Char
  | [] => []
  | b :: bs => hexDig (b / 16) :: hexDig (b % 16) :: hexCharsOf bs

/-- Model of `.hexdigest()` on a byte digest: the lowercase hexadecimal string. -/
def hexDigest (bytes : List Nat) : String := String.mk (hexCharsOf bytes)

/-- The monitor object state set up by `BinanceAnnouncementMonitor.__init__`
(src/main.py lines 30-59), with the mutable `last_announcement_id` field
threaded explicitly through the message handler. -/
structure MonitorState where
  api_key : String
  api_secret : String
  base_url : String
  reconnect_delay : Nat
  last_announcement_id : PyPrim
  ping_interval : Nat
  recv_window : Nat
  ping_timeout : Nat
deriving Repr, DecidableEq

/-- Embedding of `BinanceAnnouncementMonitor.__init__` (src/main.py lines 30-59): the
two credentials come from the environment (`None` when unset); a missing or
empty (falsy) key or secret raises `ValueError` — key checked first — and
otherwise the constant configuration fields are assigned.  File-logging
setup and the aiohttp session field are I/O plumbing and not modelled. -/
def monitorInit (apiKey apiSecret : Option String) : Except String MonitorState :=
  if apiKey.getD "" == "" then
    Except.error "BINANCE_API_KEY"
  else if apiSecret.getD "" == "" then
    Except.error "BINANCE_SECRET_KEY"
  else
    Except.ok
      ⟨apiKey.getD "", apiSecret.getD "", "wss://api.binance.com/sapi/wss",
        5, PyPrim.none, 30, 30000, 60⟩

/-- Line 83 of `generate_signature`: `{k: str(v) for k, v in params.items()}`
— every value converted to its string form, keys and order kept. -/
def stringifyParams (params : List (String × PyPrim)) : List (String × String) :=
  params.map fun p => (p.1, pyStr p.2)

/-- Line 86 of `generate_signature`: join all items as k=v with & after
`sorted(params.items())` — items sorted by Python tuple comparison (keys
first), then joined as k=v pairs with &. -/
def sortedQueryString (params : List (String × PyPrim)) : String :=
  String.intercalate "&"
    ((List.insertionSort pairLeR (stringifyParams params)).map
      fun p => p.1 ++ "=" ++ p.2)

/-- Embedding of `generate_signature` (src/main.py lines 80-98): HMAC-SHA256 of the
sorted query string, keyed by the UTF-8 bytes of the api secret, returned
as the lowercase hex digest. -/
def generate_signature (api_secret : String)
    (params : List (String × PyPrim)) : String :=
  hexDigest (hmacSha256 (strBytes api_secret) (strBytes (sortedQueryString params)))

/-- The four signing parameters assembled by `get_connection_url`
(src/main.py lines 103-108); the random hex nonce and the millisecond
timestamp are effectful inputs (uuid4, clock) passed in as arguments. -/
def connectionParams (st : MonitorState) (randomHex : String)
    (timestampMs : Int) : List (String × PyPrim) :=
  [("random", PyPrim.str randomHex),
   ("recvWindow", PyPrim.str (toString st.recv_window)),
   ("timestamp", PyPrim.str (toString timestampMs)),
   ("topic", PyPrim.str "com_announcement_en")]

/-- Characters `urllib.parse.quote_plus` leaves unencoded: ASCII letters,
digits and `_.-~`. -/
def isUrlSafe (c : Char) : Bool :=
  c.isAlpha || c.isDigit || c == '_' || c == '.' || c == '-' || c == '~'

/-- The sixteen uppercase hex digits used by percent-encoding. -/
def hexCharsUpper : List Char := "0123456789ABCDEF".data

/-- Percent encoding of one byte as `%XX`. -/
def percentByte (b : Nat) : String :=
  String.mk ['%', hexCharsUpper.getD (b / 16) '0', hexCharsUpper.getD (b % 16) '0']

/-- Model of `urllib.parse.quote_plus`: safe characters kept, space becomes `+`,
every other character percent-encoded byte-wise over its UTF-8 encoding. -/
def quote_plus (s : String) : String :=
  String.join (s.data.map fun c =>
    if isUrlSafe c then String.singleton c
    else if c == ' ' then "+"
    else String.join ((utf8enc c.toNat).map percentByte))

/-- Model of `urllib.parse.urlencode` on string items: quote-plus each key and
value, join them as k=v with &, in item order. -/
def urlencodePairs (pairs : List (String × String)) : String :=
  String.intercalate "&"
    (pairs.map fun p => quote_plus p.1 ++ "=" ++ quote_plus p.2)

/-- Embedding of `get_connection_url` (src/main.py lines 100-121): build the four
signing parameters, sign them, append the signature to the parameter set,
URL-encode everything and attach it to the base url after a `?`. -/
def get_connection_url (st : MonitorState) (randomHex : String)
    (timestampMs : Int) : String :=
  let params := connectionParams st randomHex timestampMs
  let signature := generate_signature st.api_secret params
  let query_string :=
    urlencodePairs (stringifyParams params ++ [("signature", signature)])
  st.base_url ++ "?" ++ query_string

/-- A decoded Python dict with primitive values, as produced by
`json.loads` on the announcement payloads this program consumes. -/
abbrev PyDict := List (String × PyPrim)

/-- Result of `json.loads(data_str)` when it does not raise: either a dict
or a non-dict value.  Non-dict results (scalars, arrays) are all
classified `prim`, because the only thing the program does with the result
is call `.get` on it, which raises `AttributeError` for every non-dict. -/
inductive InnerDoc where
  | prim (p : PyPrim)
  | dict (d : PyDict)
deriving Repr

/-- Python `dict.get(k, dflt)`. -/
def pyGet (d : PyDict) (k : String) (dflt : PyPrim) : PyPrim :=
  match d.find? (fun p => p.1 == k) with
  | some p => p.2
  | Option.none => dflt

/-- Decimal digit run to a value, `Option.none` when empty or non-digit. -/
def digitsVal (cs : List Char) : Option Nat :=
  if cs.isEmpty then Option.none
  else if cs.all (fun c => c.isDigit) then
    some (cs.foldl (fun acc c => 10 * acc + (c.toNat - 48)) 0)
  else Option.none

/-- Python `int(s)` on a string: optional sign then decimal digits
(whitespace and underscore tolerance of CPython is not modelled; no claim
depends on such inputs). -/
def pyIntOfString (s : String) : Option Int :=
  match s.data with
  | '-' :: rest => (digitsVal rest).map (fun n => -(n : Int))
  | '+' :: rest => (digitsVal rest).map (fun n => (n : Int))
  | cs => (digitsVal cs).map (fun n => (n : Int))

/-- Python `int(x)` on the primitive values: ints pass through, bools
become 0/1, numeric strings are parsed (`ValueError` otherwise), and
`None` raises `TypeError`. -/
def pyToInt : PyPrim → Except Unit Int
  | PyPrim.int n => Except.ok n
  | PyPrim.bool b => Except.ok (if b then 1 else 0)
  | PyPrim.str s =>
    match pyIntOfString s with
    | some n => Except.ok n
    | Option.none => Except.error ()
  | PyPrim.none => Except.error ()

/-- Proleptic Gregorian date of a day count from 1970-01-01 (the standard
era-based civil-from-days algorithm). -/
def civilFromDays (z0 : Int) : Int × Nat × Nat :=
  let z := z0 + 719468
  let era : Int := Int.fdiv z 146097
  let doe : Nat := (z - era * 146097).toNat
  let yoe : Nat := (doe - doe / 1460 + doe / 36524 - doe / 146096) / 365
  let y : Int := (yoe : Int) + era * 400
  let doy : Nat := doe - (365 * yoe + yoe / 4 - yoe / 100)
  let mp : Nat := (5 * doy + 2) / 153
  let d : Nat := doy - (153 * mp + 2) / 5 + 1
  let m : Nat := if mp < 10 then mp + 3 else mp - 9
  (if m ≤ 2 then y + 1 else y, m, d)

/-- Zero-padded two-digit decimal. -/
def pad2 (n : Nat) : String := (if n < 10 then "0" else "") ++ toString n

/-- Zero-padded four-digit year. -/
def pad4 (n : Nat) : String :=
  (if n < 10 then "000" else if n < 100 then "00" else if n < 1000 then "0" else "")
    ++ toString n

/-- Model of `datetime.fromtimestamp(ms / 1000).strftime(fmt)` with the
format %Y-%m-%d %H:%M:%S
(src/main.py lines 153-155).  Out-of-range timestamps raise (`.error`),
mirroring the `OverflowError` of `fromtimestamp`; the local timezone is
modelled as UTC and the float division by 1000 as a floor division —
claims never depend on the formatted text or the exact range boundary,
only on whether parsing completes. -/
def formatTimestamp (ms : Int) : Except Unit String :=
  let s := Int.fdiv ms 1000
  if s < -62135596800 ∨ 253402300799 < s then Except.error ()
  else
    let days := Int.fdiv s 86400
    let sod := (s - days * 86400).toNat
    let c := civilFromDays days
    Except.ok (pad4 c.1.toNat ++ "-" ++ pad2 c.2.1 ++ "-" ++ pad2 c.2.2 ++ " " ++
      pad2 (sod / 3600) ++ ":" ++ pad2 (sod % 3600 / 60) ++ ":" ++ pad2 (sod % 60))

/-- Embedding of `clean_announcement_body` as called on an arbitrary dict value
(src/main.py line 148): `None` and falsy values hit the `if not body`
branch and give `""`; truthy non-strings raise `AttributeError` at
`.replace`; strings are cleaned. -/
def pyCleanBody : PyPrim → Except Unit String
  | PyPrim.str s => Except.ok (clean_announcement_body s)
  | PyPrim.none => Except.ok ""
  | PyPrim.int n => if n == 0 then Except.ok "" else Except.error ()
  | PyPrim.bool b => if b then Except.error () else Except.ok ""

/-- The dict built by `parse_announcement` (src/main.py lines 150-158);
every key is always present (`dict.get` defaults of the consumers are
therefore never taken). -/
structure Announcement where
  catalogId : PyPrim
  catalogName : PyPrim
  publishDate : String
  title : PyPrim
  body : String
deriving Repr, DecidableEq

/-- Embedding of `parse_announcement` (src/main.py lines 140-161).  Its input is the
outcome of `json.loads(data_str)` on the nested payload string
(`Except.error` when `loads` raises).  Any exception inside the `try` —
a parse failure, `.get` on a non-dict, a bad `body` value, a bad
`publishDate` value — is caught and an empty dict (`Option.none`) is
returned after an error log.  Exception order follows the source: the
body is cleaned first (line 148), then `publishDate` is converted. -/
def parse_announcement (dataParse : Except Unit InnerDoc) : Option Announcement :=
  match dataParse with
  | Except.error _ => Option.none
  | Except.ok (InnerDoc.prim _) => Option.none
  | Except.ok (InnerDoc.dict d) =>
    match pyCleanBody (pyGet d "body" (PyPrim.str "")) with
    | Except.error _ => Option.none
    | Except.ok body =>
      match pyToInt (pyGet d "publishDate" (PyPrim.int 0)) with
      | Except.error _ => Option.none
      | Except.ok ms =>
        match formatTimestamp ms with
        | Except.error _ => Option.none
        | Except.ok pd =>
          some ⟨pyGet d "catalogId" PyPrim.none, pyGet d "catalogName" PyPrim.none,
            pd, pyGet d "title" PyPrim.none, body⟩

/-- Externally visible effects of the message handler.  `logger.info` and
`logger.debug` calls are presentation only and are not tracked; the
`logError` effects carry the name of the function whose handler logged. -/
inductive Effect where
  | logError (context : String)
  | save (a : Announcement)
  | webhook (content : String)
deriving Repr, DecidableEq

/-- An inbound text frame after the outer `json.loads` in
`connect_and_listen` (src/main.py line 326): the `type` and `topic`
values, and the parse outcome of the nested `data` payload string (when
`data` is absent the source supplies a literal empty-object text, whose parse outcome is
`Except.ok (InnerDoc.dict [])`). -/
structure WsMessage where
  type : PyPrim
  topic : PyPrim
  dataParse : Except Unit InnerDoc
deriving Repr

/-- Outcome of the `try` block of `handle_message`: normal return or an
escaping exception, each with the state value and effects produced up to
that point (Python keeps state mutations made before a raise). -/
inductive PyResult where
  | ok (st : PyPrim) (effs : List Effect)
  | exn (st : PyPrim) (effs : List Effect)
deriving Repr, DecidableEq

/-- The dedup check of `handle_message` (src/main.py lines 180-184):
accept — returning the updated stored id — exactly when the parsed id
differs (Python `==`) from the stored one. -/
def dedupStep (st : PyPrim) (aid : PyPrim) : Bool × PyPrim :=
  if pyPrimEq aid st then (false, st) else (true, aid)

/-- The `try` block of `handle_message` (src/main.py lines 165-199).
COMMAND frames are logged and dropped; DATA frames with the subscribed
topic are parsed; a parse failure (`Option.none`, always accompanied by an
error log inside `parse_announcement`) returns with no further action;
duplicates return silently.  For an accepted announcement the stored id is
updated first (line 184) and then line 191 evaluates
`.slice(0, 1000)` on the body string inside a log f-string — Python
strings have no attribute `slice`, so an `AttributeError` is raised
unconditionally at that point and `save_announcement` / `send_to_webhook`
(lines 195-198) are unreachable. -/
def handle_message_try (st : PyPrim) (msg : WsMessage) : PyResult :=
  if pyPrimEq msg.type (PyPrim.str "COMMAND") then
    PyResult.ok st []
  else if pyPrimEq msg.type (PyPrim.str "DATA") &&
      pyPrimEq msg.topic (PyPrim.str "com_announcement_en") then
    match parse_announcement msg.dataParse with
    | Option.none => PyResult.ok st [Effect.logError "parse_announcement"]
    | some ann =>
      match dedupStep st ann.catalogId with
      | (false, st2) => PyResult.ok st2 []
      | (true, st2) => PyResult.exn st2 []
  else
    PyResult.ok st []

/-- Embedding of `handle_message` (src/main.py lines 163-201): the `try` body above
wrapped in the `except Exception` handler, which logs the error and
returns normally, keeping the state reached inside the body. -/
def handle_message (st : PyPrim) (msg : WsMessage) : PyPrim × List Effect :=
  match handle_message_try st msg with
  | PyResult.ok s effs => (s, effs)
  | PyResult.exn s effs => (s, effs ++ [Effect.logError "handle_message"])

/-- Sequential processing of inbound frames by `handle_message`,
accumulating the effect trace. -/
def runMessages (st : PyPrim) : List WsMessage → PyPrim × List Effect
  | [] => (st, [])
  | m :: ms =>
    let r := handle_message st m
    let rest := runMessages r.1 ms
    (rest.1, r.2 ++ rest.2)

/-- Dedup decisions for a sequence of parsed ids fed through `dedupStep`
from a given stored id. -/
def dedupDecisions (st : PyPrim) : List PyPrim → List Bool
  | [] => []
  | aid :: ids =>
    let r := dedupStep st aid
    r.1 :: dedupDecisions r.2 ids

/-- Modelled from the spec: `send_message_async` lives in webhook.py,
which is not under src/ (only its caller is).  Per the EventSink boundary
contract a delivery either succeeds or fails, so its outcome is supplied
by the caller as an argument and passed through. -/
def send_message_async (outcome : Except Unit Unit) : Except Unit Unit := outcome

/-- The notification text formatted by `send_to_webhook`
(src/main.py lines 242-254); the N/A defaults are dead because the
parsed dict always carries all five keys, and the body is cleaned a
second time (line 246). -/
def webhookContent (a : Announcement) : String :=
  "📢 币安新公告\n" ++
  "📌 分类: " ++ pyStr a.catalogName ++ "\n" ++
  "📑 标题: " ++ pyStr a.title ++ "\n" ++
  "⏰ 时间: " ++ a.publishDate ++ "\n" ++
  "📄 内容: " ++ clean_announcement_body a.body ++ "\n"

/-- Embedding of `send_to_webhook` (src/main.py lines 236-260): format the content,
attempt the delivery, and catch any failure with an error log; the
function never raises and never touches `last_announcement_id` (its type
involves no state). -/
def send_to_webhook (a : Announcement) (sinkResult : Except Unit Unit) :
    List Effect :=
  match send_message_async sinkResult with
  | Except.ok _ => [Effect.webhook (webhookContent a)]
  | Except.error _ =>
    [Effect.webhook (webhookContent a), Effect.logError "send_to_webhook"]

/-- Model of `json.dumps` with default separators on a string-valued dict whose
keys and values need no escaping: entries as "k": "v" joined by a comma
and a space, in braces. -/
def jsonDumpsPairs (pairs : List (String × String)) : String :=
  "\x7b" ++
    String.intercalate ", "
      (pairs.map fun p => "\"" ++ p.1 ++ "\": \"" ++ p.2 ++ "\"") ++
    "\x7d"

/-- The subscription text frame sent by `subscribe_aiohttp`
(src/main.py lines 272-279). -/
def subscribe_message_text : String :=
  jsonDumpsPairs [("command", "SUBSCRIBE"), ("value", "com_announcement_en")]

/-- Transport-level actions of the supervisor loop, in order.  `effect`
wraps the message-handler effects; `sleep` is `asyncio.sleep`. -/
inductive TraceAction where
  | connect
  | sendText (s : String)
  | effect (e : Effect)
  | sleep (secs : Nat)
  | startupNotify
deriving Repr, DecidableEq

/-- One scripted connection attempt for the supervisor: `ws_connect`
raises (`fail`), or the connection succeeds and delivers the given text
frames before closing. -/
inductive ConnOutcome where
  | fail
  | success (msgs : List WsMessage)

/-- The inner `async for` receive loop of `connect_and_listen`
(src/main.py lines 324-331) over the text frames of one connection. -/
def processMsgs (st : PyPrim) : List WsMessage → PyPrim × List TraceAction
  | [] => (st, [])
  | m :: ms =>
    let r := handle_message st m
    let rest := processMsgs r.1 ms
    (rest.1, r.2.map TraceAction.effect ++ rest.2)

/-- Embedding of `connect_and_listen` (src/main.py lines 297-343) run over a finite
script of connection attempts (the real `while True` loop continues
forever; the trace of any finite prefix of attempts is modelled).  A
failed `ws_connect` logs and falls through to the fixed
`asyncio.sleep(self.reconnect_delay)`; a successful connection sends the
single subscribe frame first, processes inbound frames until the
connection ends, and then also falls through to the same sleep.
Heartbeats are delegated to the transport (the `heartbeat=` parameter,
line 316) and ERROR-type frames are out of the modelled frame alphabet. -/
def connect_and_listen (st : MonitorState) : List ConnOutcome → MonitorState × List TraceAction
  | [] => (st, [])
  | ConnOutcome.fail :: rest =>
    let r := connect_and_listen st rest
    (r.1, TraceAction.connect :: TraceAction.sleep st.reconnect_delay :: r.2)
  | ConnOutcome.success msgs :: rest =>
    let p := processMsgs st.last_announcement_id msgs
    let st2 : MonitorState :=
      ⟨st.api_key, st.api_secret, st.base_url, st.reconnect_delay, p.1,
        st.ping_interval, st.recv_window, st.ping_timeout⟩
    let r := connect_and_listen st2 rest
    (r.1,
      TraceAction.connect :: TraceAction.sendText subscribe_message_text ::
        (p.2 ++ TraceAction.sleep st.reconnect_delay :: r.2))

/-- Embedding of `main` (src/main.py lines 354-369): construct the monitor and run it;
a construction failure is caught once, a startup-failure notification is
attempted, and nothing is retried. -/
def mainRun (apiKey apiSecret : Option String) (attempts : List ConnOutcome) :
    List TraceAction :=
  match monitorInit apiKey apiSecret with
  | Except.error _ => [TraceAction.startupNotify]
  | Except.ok st => (connect_and_listen st attempts).2

/-- True exactly on webhook-delivery effects. -/
def isWebhookEffect : Effect → Bool
  | Effect.webhook _ => true
  | _ => false

/-- True exactly on message-handler effects in a supervisor trace. -/
def isEffectAction : TraceAction → Bool
  | TraceAction.effect _ => true
  | _ => false

/-- A valid DATA frame on the subscribed topic whose payload carries
catalogId 7 and nothing else. -/
def dataFrame7 : WsMessage :=
  ⟨PyPrim.str "DATA", PyPrim.str "com_announcement_en",
    Except.ok (InnerDoc.dict [("catalogId", PyPrim.int 7)])⟩

/-- A frame whose type is neither COMMAND nor DATA. -/
def pingFrame : WsMessage :=
  ⟨PyPrim.str "PING", PyPrim.none, Except.ok (InnerDoc.dict [])⟩

/-- A DATA frame on the subscribed topic whose nested payload fails to
parse (malformed JSON). -/
def badDataFrame : WsMessage :=
  ⟨PyPrim.str "DATA", PyPrim.str "com_announcement_en", Except.error ()⟩

/-- A monitor state as built by a successful `monitorInit`. -/
def testState : MonitorState :=
  ⟨"k", "s", "wss://api.binance.com/sapi/wss", 5, PyPrim.none, 30, 30000, 60⟩

set_option maxRecDepth 100000

theorem lexLt_cons_of_eq {a b : Nat} {as bs : List Nat} (h : a = b)
    (ht : LexLt as bs) : LexLt (a :: as) (b :: bs) := by
  subst h; exact LexLt.tail ht

theorem lexLt_append_left {u v : List Nat} (h : LexLt u v) :
    ∀ w : List Nat, LexLt (w ++ u) (w ++ v) := by
  intro w
  induction w with
  | nil => simpa using h
  | cons x xs ih => exact LexLt.tail ih

theorem utf8enc_ne_nil (n : Nat) : utf8enc n ≠ [] := by
  unfold utf8enc
  split_ifs <;> simp

theorem lexLt_nil_append {l r : List Nat} (h : l ≠ []) : LexLt [] (l ++ r) := by
  cases l with
  | nil => exact absurd rfl h
  | cons x xs => exact LexLt.nil

/-- Core monotonicity fact: UTF-8 encoding preserves strict code-point
order, even when arbitrary suffixes follow (UTF-8 encodings of distinct
code points differ at a position where both have a byte). -/
theorem lexLt_utf8enc_append {m n : Nat} (hmn : m < n) (hn : n < 1114112) :
    ∀ r1 r2 : List Nat, LexLt (utf8enc m ++ r1) (utf8enc n ++ r2) := by
  intro r1 r2
  by_cases a1 : m < 128
  · by_cases b1 : n < 128
    · simp only [utf8enc, if_pos a1, if_pos b1, List.cons_append, List.nil_append]
      exact LexLt.head hmn
    · by_cases b2 : n < 2048
      · simp only [utf8enc, if_pos a1, if_neg b1, if_pos b2, List.cons_append,
          List.nil_append]
        exact LexLt.head (by omega)
      · by_cases b3 : n < 65536
        · simp only [utf8enc, if_pos a1, if_neg b1, if_neg b2, if_pos b3,
            List.cons_append, List.nil_append]
          exact LexLt.head (by omega)
        · simp only [utf8enc, if_pos a1, if_neg b1, if_neg b2, if_neg b3,
            List.cons_append, List.nil_append]
          exact LexLt.head (by omega)
  · by_cases a2 : m < 2048
    · by_cases b1 : n < 128
      · exfalso; omega
      · by_cases b2 : n < 2048
        · simp only [utf8enc, if_neg a1, if_pos a2, if_neg b1, if_pos b2,
            List.cons_append, List.nil_append]
          rcases Nat.lt_or_ge (m / 64) (n / 64) with hd | hd
          · exact LexLt.head (by omega)
          · exact lexLt_cons_of_eq (by omega) (LexLt.head (by omega))
        · by_cases b3 : n < 65536
          · simp only [utf8enc, if_neg a1, if_pos a2, if_neg b1, if_neg b2,
              if_pos b3, List.cons_append, List.nil_append]
            exact LexLt.head (by omega)
          · simp only [utf8enc, if_neg a1, if_pos a2, if_neg b1, if_neg b2,
              if_neg b3, List.cons_append, List.nil_append]
            exact LexLt.head (by omega)
    · by_cases a3 : m < 65536
      · by_cases b3 : n < 65536
        · have b1 : ¬ n < 128 := by omega
          have b2 : ¬ n < 2048 := by omega
          simp only [utf8enc, if_neg a1, if_neg a2, if_pos a3, if_neg b1,
            if_neg b2, if_pos b3, List.cons_append, List.nil_append]
          rcases Nat.lt_or_ge (m / 4096) (n / 4096) with hd | hd
          · exact LexLt.head (by omega)
          · rcases Nat.lt_or_ge (m / 64 % 64) (n / 64 % 64) with he | he
            · exact lexLt_cons_of_eq (by omega) (LexLt.head (by omega))
            · exact lexLt_cons_of_eq (by omega)
                (lexLt_cons_of_eq (by omega) (LexLt.head (by omega)))
        · have b1 : ¬ n < 128 := by omega
          have b2 : ¬ n < 2048 := by omega
          simp only [utf8enc, if_neg a1, if_neg a2, if_pos a3, if_neg b1,
            if_neg b2, if_neg b3, List.cons_append, List.nil_append]
          exact LexLt.head (by omega)
      · have b1 : ¬ n < 128 := by omega
        have b2 : ¬ n < 2048 := by omega
        have b3 : ¬ n < 65536 := by omega
        simp only [utf8enc, if_neg a1, if_neg a2, if_neg a3, if_neg b1,
          if_neg b2, if_neg b3, List.cons_append, List.nil_append]
        rcases Nat.lt_or_ge (m / 262144) (n / 262144) with hd | hd
        · exact LexLt.head (by omega)
        · rcases Nat.lt_or_ge (m / 4096 % 64) (n / 4096 % 64) with he | he
          · exact lexLt_cons_of_eq (by omega) (LexLt.head (by omega))
          · rcases Nat.lt_or_ge (m / 64 % 64) (n / 64 % 64) with hf | hf
            · exact lexLt_cons_of_eq (by omega)
                (lexLt_cons_of_eq (by omega) (LexLt.head (by omega)))
            · exact lexLt_cons_of_eq (by omega) (lexLt_cons_of_eq (by omega)
                (lexLt_cons_of_eq (by omega) (LexLt.head (by omega))))

theorem charValid (c : Char) : c.toNat < 1114112 := by
  rcases c.valid with h | ⟨_, h2⟩
  · exact Nat.lt_trans h (by norm_num)
  · exact h2

theorem charsLt_trans : ∀ {a b c : List Char},
    charsLt a b = true → charsLt b c = true → charsLt a c = true := by
  intro a
  induction a with
  | nil =>
    intro b c hab hbc
    cases b with
    | nil => simp [charsLt] at hab
    | cons y ys =>
      cases c with
      | nil => simp [charsLt] at hbc
      | cons z zs => simp [charsLt]
  | cons x xs ih =>
    intro b c hab hbc
    cases b with
    | nil => simp [charsLt] at hab
    | cons y ys =>
      cases c with
      | nil => simp [charsLt] at hbc
      | cons z zs =>
        simp only [charsLt] at hab hbc ⊢
        by_cases hxy : x < y
        · by_cases hyz : y < z
          · rw [if_pos (lt_trans hxy hyz)]
          · rw [if_neg hyz] at hbc
            by_cases heyz : y = z
            · subst heyz; rw [if_pos hxy]
            · simp [heyz] at hbc
        · rw [if_neg hxy] at hab
          by_cases hexy : x = y
          · subst hexy
            rw [if_pos rfl] at hab
            by_cases hxz : x < z
            · rw [if_pos hxz]
            · rw [if_neg hxz] at hbc ⊢
              by_cases hexz : x = z
              · subst hexz
                rw [if_pos rfl] at hbc ⊢
                exact ih hab hbc
              · simp [hexz] at hbc
          · simp [hexy] at hab

theorem charsLt_trichotomy : ∀ a b : List Char,
    charsLt a b = true ∨ a = b ∨ charsLt b a = true := by
  intro a
  induction a with
  | nil =>
    intro b
    cases b with
    | nil => exact Or.inr (Or.inl rfl)
    | cons y ys => exact Or.inl (by simp [charsLt])
  | cons x xs ih =>
    intro b
    cases b with
    | nil => exact Or.inr (Or.inr (by simp [charsLt]))
    | cons y ys =>
      rcases lt_trichotomy x y with hxy | hxy | hxy
      · exact Or.inl (by simp [charsLt, hxy])
      · subst hxy
        rcases ih ys with h | h | h
        · exact Or.inl (by simp [charsLt, h])
        · exact Or.inr (Or.inl (by rw [h]))
        · refine Or.inr (Or.inr ?_)
          simp [charsLt, h]
      · refine Or.inr (Or.inr ?_)
        have hne : ¬ y = x := fun he => absurd he.symm (ne_of_gt hxy)
        simp [charsLt, hxy, hne, not_lt_of_gt hxy]

/-- Code-point order implies byte-wise order on the UTF-8 encodings. -/
theorem charsLt_utf8 : ∀ {xs ys : List Char},
    charsLt xs ys = true → LexLt (utf8Chars xs) (utf8Chars ys) := by
  intro xs
  induction xs with
  | nil =>
    intro ys h
    cases ys with
    | nil => simp [charsLt] at h
    | cons y l =>
      exact lexLt_nil_append (utf8enc_ne_nil y.toNat)
  | cons x xs ih =>
    intro ys h
    cases ys with
    | nil => simp [charsLt] at h
    | cons y l =>
      simp only [charsLt] at h
      by_cases hxy : x < y
      · exact lexLt_utf8enc_append hxy (charValid y) _ _
      · rw [if_neg hxy] at h
        by_cases hexy : x = y
        · subst hexy
          rw [if_pos rfl] at h
          exact lexLt_append_left (ih h) _
        · simp [hexy] at h

theorem pyStrLt_byteLt {a b : String} (h : pyStrLt a b = true) :
    LexLt (strBytes a) (strBytes b) :=
  charsLt_utf8 h

theorem pyStrLe_byteLe {a b : String} (h : pyStrLe a b = true) : byteLe a b := by
  unfold pyStrLe at h
  rcases Bool.or_eq_true_iff.mp h with h | h
  · exact Or.inl (pyStrLt_byteLt h)
  · exact Or.inr (by rw [eq_of_beq h])

theorem charsLt_irrefl : ∀ l : List Char, charsLt l l = false := by
  intro l
  induction l with
  | nil => rfl
  | cons x xs ih => simp [charsLt, ih]

theorem chars_eq_of_data_eq {a b : String} (h : a.data = b.data) : a = b := by
  cases a
  cases b
  simp only at h
  rw [h]

theorem pyStrLt_trichotomy (a b : String) :
    pyStrLt a b = true ∨ a = b ∨ pyStrLt b a = true := by
  rcases charsLt_trichotomy a.data b.data with h | h | h
  · exact Or.inl h
  · exact Or.inr (Or.inl (chars_eq_of_data_eq h))
  · exact Or.inr (Or.inr h)

theorem pyStrLt_irrefl (a : String) : pyStrLt a a = false :=
  charsLt_irrefl a.data

theorem pyStrLt_trans {a b c : String} (h1 : pyStrLt a b = true)
    (h2 : pyStrLt b c = true) : pyStrLt a c = true :=
  charsLt_trans h1 h2

theorem pyStrLe_refl (a : String) : pyStrLe a a = true := by
  simp [pyStrLe]

theorem pyStrLe_trans {a b c : String} (h1 : pyStrLe a b = true)
    (h2 : pyStrLe b c = true) : pyStrLe a c = true := by
  unfold pyStrLe at *
  rcases Bool.or_eq_true_iff.mp h1 with hx | hx
  · rcases Bool.or_eq_true_iff.mp h2 with hy | hy
    · exact Bool.or_eq_true_iff.mpr (Or.inl (pyStrLt_trans hx hy))
    · have he : b = c := eq_of_beq hy
      exact Bool.or_eq_true_iff.mpr (Or.inl (he ▸ hx))
  · have he : a = b := eq_of_beq hx
    rw [he]
    exact h2

theorem pairLeR_total : ∀ a b : String × String, pairLeR a b ∨ pairLeR b a := by
    intro a b
    rcases pyStrLt_trichotomy a.1 b.1 with h | h | h
    · left; simp [pairLeR, pairLeB, h]
    · have hf : pyStrLt a.1 b.1 = false := by rw [h]; exact pyStrLt_irrefl b.1
      have hf2 : pyStrLt b.1 a.1 = false := by rw [h]; exact pyStrLt_irrefl b.1
      have heb : (a.1 == b.1) = true := beq_iff_eq.mpr h
      have heb2 : (b.1 == a.1) = true := beq_iff_eq.mpr h.symm
      rcases pyStrLt_trichotomy a.2 b.2 with h2 | h2 | h2
      · left; simp [pairLeR, pairLeB, hf, heb, pyStrLe, h2]
      · left; simp [pairLeR, pairLeB, hf, heb, pyStrLe, h2]
      · right; simp [pairLeR, pairLeB, hf2, heb2, pyStrLe, h2]
    · right; simp [pairLeR, pairLeB, h]

theorem pairLeR_trans : ∀ a b c : String × String, pairLeR a b → pairLeR b c → pairLeR a c := by
    intro a b c hab hbc
    unfold pairLeR pairLeB at hab hbc ⊢
    by_cases h1 : pyStrLt a.1 b.1 = true
    · by_cases h2 : pyStrLt b.1 c.1 = true
      · simp [pyStrLt_trans h1 h2]
      · simp only [h2, if_false, Bool.false_eq_true] at hbc
        by_cases he : (b.1 == c.1) = true
        · have heq : b.1 = c.1 := eq_of_beq he
          simp [heq ▸ h1]
        · simp [he] at hbc
    · simp only [h1, if_false, Bool.false_eq_true] at hab
      by_cases he : (a.1 == b.1) = true
      · simp only [he, if_true] at hab
        have heq : a.1 = b.1 := eq_of_beq he
        by_cases h2 : pyStrLt b.1 c.1 = true
        · simp [heq ▸ h2]
        · simp only [h2, if_false, Bool.false_eq_true] at hbc
          by_cases he2 : (b.1 == c.1) = true
          · simp only [he2, if_true] at hbc
            have heq2 : b.1 = c.1 := eq_of_beq he2
            by_cases hlt : pyStrLt a.1 c.1 = true
            · simp [hlt]
            · simp [hlt, beq_iff_eq.mpr (heq.trans heq2),
                pyStrLe_trans hab hbc]
          · simp [he2] at hbc
      · simp [he] at hab

theorem digestBytes_length (s : Sha256State) : (digestBytes s).length = 32 := by
  simp [digestBytes, word2bytes]

theorem digestBytes_lt (s : Sha256State) : ∀ b ∈ digestBytes s, b < 256 := by
  intro b hb
  simp [digestBytes, word2bytes] at hb
  omega

theorem sha256_length (msg : List Nat) : (sha256 msg).length = 32 :=
  digestBytes_length _

theorem sha256_lt (msg : List Nat) : ∀ b ∈ sha256 msg, b < 256 :=
  digestBytes_lt _

theorem hmacSha256_length (key msg : List Nat) :
    (hmacSha256 key msg).length = 32 :=
  sha256_length _

theorem hmacSha256_lt (key msg : List Nat) : ∀ b ∈ hmacSha256 key msg, b < 256 :=
  sha256_lt _

theorem hexCharsOf_length : ∀ bs : List Nat,
    (hexCharsOf bs).length = 2 * bs.length := by
  intro bs
  induction bs with
  | nil => rfl
  | cons b bs ih => simp [hexCharsOf, ih]; omega

theorem hexDig_mem {n : Nat} (h : n < 16) : hexDig n ∈ hexChars := by
  interval_cases n <;> decide

theorem hexCharsOf_mem : ∀ bs : List Nat, (∀ b ∈ bs, b < 256) →
    ∀ c ∈ hexCharsOf bs, c ∈ hexChars := by
  intro bs
  induction bs with
  | nil => intro _ c hc; simp [hexCharsOf] at hc
  | cons b bs ih =>
    intro hb c hc
    have hblt : b < 256 := hb b (List.mem_cons_self _ _)
    simp only [hexCharsOf, List.mem_cons] at hc
    rcases hc with hc | hc | hc
    · exact hc ▸ hexDig_mem (by omega)
    · exact hc ▸ hexDig_mem (by omega)
    · exact ih (fun x hx => hb x (List.mem_cons_of_mem _ hx)) c hc

theorem hexDigest_length {bytes : List Nat} (h : bytes.length = 32) :
    (hexDigest bytes).length = 64 := by
  have : (hexDigest bytes).length = (hexCharsOf bytes).length := rfl
  rw [this, hexCharsOf_length, h]

/-- Evidence that the embedded SHA-256 is the real SHA-256: the FIPS 180-4
test vector for "abc". -/
theorem sha256_vector_abc :
    hexDigest (sha256 (strBytes "abc")) =
      "ba7816bf8f01cfea414140de5dae2223b00361a396177a9cb410ff61f20015ad" := by
  decide

/-- Evidence that the embedded HMAC is the real HMAC-SHA256: the RFC 2202
style test vector for key "key" over the quick-brown-fox message. -/
theorem hmac_vector_fox :
    hexDigest (hmacSha256 (strBytes "key")
        (strBytes "The quick brown fox jumps over the lazy dog")) =
      "f7bc83f430538424b13298e6aa6fb143ef4d59a14946175997479dbc2d1a3cd8" := by
  decide

theorem pairLeR_of_keyLt {a b : String × String}
    (h : pyStrLt a.1 b.1 = true) : pairLeR a b := by
  simp [pairLeR, pairLeB, h]

theorem pairLeR_key_byteLe {a b : String × String} (h : pairLeR a b) :
    byteLe a.1 b.1 := by
  unfold pairLeR pairLeB at h
  by_cases h1 : pyStrLt a.1 b.1 = true
  · exact pyStrLe_byteLe (by simp [pyStrLe, h1])
  · simp only [h1, if_false, Bool.false_eq_true] at h
    by_cases h2 : (a.1 == b.1) = true
    · have : a.1 = b.1 := eq_of_beq h2
      exact Or.inr (by rw [this])
    · simp [h2] at h

/-- The four connection parameters are already in Python sort order, for
any values of the nonce and timestamp. -/
theorem sortFour (v1 v2 v3 v4 : String) :
    List.insertionSort pairLeR
      [("random", v1), ("recvWindow", v2), ("timestamp", v3), ("topic", v4)] =
      [("random", v1), ("recvWindow", v2), ("timestamp", v3), ("topic", v4)] := by
  have k1 : pyStrLt "random" "recvWindow" = true := by decide
  have k2 : pyStrLt "recvWindow" "timestamp" = true := by decide
  have k3 : pyStrLt "timestamp" "topic" = true := by decide
  have h1 : pairLeR ("random", v1) ("recvWindow", v2) := pairLeR_of_keyLt k1
  have h2 : pairLeR ("recvWindow", v2) ("timestamp", v3) := pairLeR_of_keyLt k2
  have h3 : pairLeR ("timestamp", v3) ("topic", v4) := pairLeR_of_keyLt k3
  simp [List.insertionSort, List.orderedInsert, h1, h2, h3]

/-- C3 claim: for every secret and parameter mapping, the signing
operation stringifies the values, sorts the items ascending (byte-wise on
keys), joins them as k=v pairs with &, takes the HMAC-SHA256 of that
string keyed by the secret, and returns the lowercase hex digest of fixed
length 64. -/
theorem C3_generate_signature (secret : String)
    (params : List (String × PyPrim)) :
    generate_signature secret params =
      hexDigest (hmacSha256 (strBytes secret)
        (strBytes (sortedQueryString params)))
    ∧ List.Perm
        ((List.insertionSort pairLeR (stringifyParams params)).map Prod.fst)
        (params.map Prod.fst)
    ∧ List.Pairwise byteLe
        ((List.insertionSort pairLeR (stringifyParams params)).map Prod.fst)
    ∧ (generate_signature secret params).length = 64
    ∧ (generate_signature secret params).data.all
        (fun c => hexChars.contains c) = true := by
  haveI : IsTotal (String × String) pairLeR := ⟨pairLeR_total⟩
  haveI : IsTrans (String × String) pairLeR := ⟨pairLeR_trans⟩
  refine ⟨rfl, ?_, ?_, ?_, ?_⟩
  · have hp := (List.perm_insertionSort pairLeR (stringifyParams params)).map Prod.fst
    have he : (stringifyParams params).map Prod.fst = params.map Prod.fst := by
      simp [stringifyParams]
    rw [he] at hp
    exact hp
  · exact List.Pairwise.map Prod.fst
      (fun a b hab => pairLeR_key_byteLe hab)
      (List.sorted_insertionSort pairLeR (stringifyParams params))
  · exact hexDigest_length (hmacSha256_length _ _)
  · have hmem : ∀ c ∈ (generate_signature secret params).data, c ∈ hexChars :=
      hexCharsOf_mem _ (hmacSha256_lt _ _)
    exact List.all_eq_true.mpr fun c hc =>
      List.elem_eq_true_of_mem (hmem c hc)

/-- C4 claim: every connection URL is the base url, a `?`, and the
URL-encoded five parameters random, recvWindow, timestamp, topic and
signature, where the signature is computed over the lexicographically
sorted k=v&-joined form of only the other four parameters — the signature
itself is excluded from the signed string and appended afterwards. -/
theorem C4_connection_url (st : MonitorState) (randomHex : String)
    (timestampMs : Int) :
    get_connection_url st randomHex timestampMs =
      st.base_url ++ "?" ++ urlencodePairs
        [("random", randomHex),
         ("recvWindow", toString st.recv_window),
         ("timestamp", toString timestampMs),
         ("topic", "com_announcement_en"),
         ("signature",
           generate_signature st.api_secret
             (connectionParams st randomHex timestampMs))]
    ∧ generate_signature st.api_secret
        (connectionParams st randomHex timestampMs) =
      hexDigest (hmacSha256 (strBytes st.api_secret)
        (strBytes (String.intercalate "&"
          (List.map (fun p => p.1 ++ "=" ++ p.2)
            [("random", randomHex),
             ("recvWindow", toString st.recv_window),
             ("timestamp", toString timestampMs),
             ("topic", ("com_announcement_en" : String))])))) := by
  constructor
  · simp [get_connection_url, connectionParams, stringifyParams, pyStr]
  · simp only [generate_signature, sortedQueryString, connectionParams,
      stringifyParams, List.map_cons, List.map_nil, pyStr]
    rw [sortFour]
    simp

/-- C5 claim: on the body "This is a general announcement. Real content."
the boilerplate stripper returns exactly " Real content.": the known
boilerplate phrase is removed as an exact literal substring and no other
character is altered. -/
theorem C5_clean_body :
    clean_announcement_body "This is a general announcement. Real content." =
      " Real content." := by
  decide

theorem pyPrimEq_refl (a : PyPrim) : pyPrimEq a a = true := by
  cases a <;> simp [pyPrimEq]

theorem pyPrimEq_symm (a b : PyPrim) : pyPrimEq a b = pyPrimEq b a := by
  cases a <;> cases b <;> simp [pyPrimEq, beq_iff_eq, eq_comm]

theorem pyGet_not_found {d : PyDict} {k : String} {dflt : PyPrim}
    (h : d.find? (fun p => p.1 == k) = Option.none) : pyGet d k dflt = dflt := by
  simp [pyGet, h]

theorem parse_catalogId {d : PyDict} {ann : Announcement}
    (hp : parse_announcement (Except.ok (InnerDoc.dict d)) = some ann) :
    ann.catalogId = pyGet d "catalogId" PyPrim.none := by
  simp only [parse_announcement] at hp
  cases hb : pyCleanBody (pyGet d "body" (PyPrim.str "")) with
  | error e => rw [hb] at hp; simp at hp
  | ok body =>
    rw [hb] at hp
    simp only [] at hp
    cases hm : pyToInt (pyGet d "publishDate" (PyPrim.int 0)) with
    | error e => rw [hm] at hp; simp at hp
    | ok ms =>
      rw [hm] at hp
      simp only [] at hp
      cases hf : formatTimestamp ms with
      | error e => rw [hf] at hp; simp at hp
      | ok pd =>
        rw [hf] at hp
        simp only [Option.some.injEq] at hp
        rw [← hp]

/-- C1 claim assessment: two consecutive identical valid DATA frames
produce ZERO sink deliveries, not one.  The first frame is accepted and
updates the stored id, but the handler then raises `AttributeError` on
`.slice(0, 1000)` on the body string (line 191) — Python strings
have no `slice` attribute — before `save_announcement` or
`send_to_webhook` can run; the exception is caught and logged.  The
second frame is filtered by the dedup check. -/
theorem C1_pipeline_zero_deliveries :
    runMessages PyPrim.none [dataFrame7, dataFrame7] =
      (PyPrim.int 7, [Effect.logError "handle_message"])
    ∧ (runMessages PyPrim.none [dataFrame7, dataFrame7]).2.all
        (fun e => !(isWebhookEffect e)) = true := by
  constructor
  · decide
  · decide

/-- C2 counterexample: with A := None (exactly the parsed id that a
payload without catalogId produces) and B := 1, A differs from B and yet
the decisions are not [true, false, true, true, false]: the first two are
false because the initial stored id is also None. -/
theorem C2_counterexample :
    PyPrim.none ≠ PyPrim.int 1
    ∧ dedupDecisions PyPrim.none
        [PyPrim.none, PyPrim.none, PyPrim.int 1, PyPrim.none, PyPrim.none] ≠
        [true, false, true, true, false] := by
  constructor
  · decide
  · decide

/-- C2 amended claim: for ids [A, A, B, A, A] fed from the initial empty
state the accept decisions are [true, false, true, true, false] provided
A is Python-unequal to B AND A is not itself the initial empty value
None; and in general an id is accepted, with the stored id updated,
exactly when it is Python-unequal to the single most recently stored
id. -/
theorem C2_dedup_decisions (A B : PyPrim)
    (hAB : pyPrimEq A B = false) (hA : pyPrimEq A PyPrim.none = false) :
    dedupDecisions PyPrim.none [A, A, B, A, A] =
      [true, false, true, true, false]
    ∧ ∀ st aid : PyPrim,
        (dedupStep st aid).1 = !(pyPrimEq aid st)
        ∧ (dedupStep st aid).2 = (if pyPrimEq aid st then st else aid) := by
  have hBA : pyPrimEq B A = false := by rw [← pyPrimEq_symm]; exact hAB
  constructor
  · simp [dedupDecisions, dedupStep, hA, hAB, hBA, pyPrimEq_refl]
  · intro st aid
    constructor
    · cases h : pyPrimEq aid st <;> simp [dedupStep, h]
    · cases h : pyPrimEq aid st <;> simp [dedupStep, h]

/-- C2 witness: the amended claim applied at A := 1, B := 2. -/
theorem C2_witness :
    dedupDecisions PyPrim.none
      [PyPrim.int 1, PyPrim.int 1, PyPrim.int 2, PyPrim.int 1, PyPrim.int 1] =
      [true, false, true, true, false] :=
  (C2_dedup_decisions (PyPrim.int 1) (PyPrim.int 2) (by decide) (by decide)).1

/-- C6 claim: decoding never lets an exception escape `handle_message`.
A frame that is neither a COMMAND frame nor a DATA frame on the
subscribed topic is dropped with no dedup change and no sink effect; a
DATA frame whose nested payload fails to parse is dropped with only a
logged error; and even when the try-body raises, the except handler
returns normally with the state reached and a logged error. -/
theorem C6_decode_never_raises (st : PyPrim) (msg : WsMessage) :
    (pyPrimEq msg.type (PyPrim.str "COMMAND") = false →
      (pyPrimEq msg.type (PyPrim.str "DATA") &&
        pyPrimEq msg.topic (PyPrim.str "com_announcement_en")) = false →
      handle_message st msg = (st, []))
    ∧ (pyPrimEq msg.type (PyPrim.str "COMMAND") = false →
      (pyPrimEq msg.type (PyPrim.str "DATA") &&
        pyPrimEq msg.topic (PyPrim.str "com_announcement_en")) = true →
      parse_announcement msg.dataParse = Option.none →
      handle_message st msg = (st, [Effect.logError "parse_announcement"]))
    ∧ (∀ s effs, handle_message_try st msg = PyResult.exn s effs →
      handle_message st msg = (s, effs ++ [Effect.logError "handle_message"])) := by
  refine ⟨?_, ?_, ?_⟩
  · intro h1 h2
    simp [handle_message, handle_message_try, h1, h2]
  · intro h1 h2 h3
    simp [handle_message, handle_message_try, h1, h2, h3]
  · intro s effs h
    simp [handle_message, h]

/-- C6 witness: the three cases at concrete frames — an unknown-type
frame, a DATA frame with unparsable payload, and a DATA frame that
triggers the caught AttributeError. -/
theorem C6_witness :
    handle_message PyPrim.none pingFrame = (PyPrim.none, [])
    ∧ handle_message PyPrim.none badDataFrame =
        (PyPrim.none, [Effect.logError "parse_announcement"])
    ∧ handle_message PyPrim.none dataFrame7 =
        (PyPrim.int 7, [] ++ [Effect.logError "handle_message"]) :=
  ⟨(C6_decode_never_raises PyPrim.none pingFrame).1 (by decide) (by decide),
   (C6_decode_never_raises PyPrim.none badDataFrame).2.1 (by decide) (by decide)
     (by decide),
   (C6_decode_never_raises PyPrim.none dataFrame7).2.2 (PyPrim.int 7) []
     (by decide)⟩

/-- C9 claim assessment: the dedup state is updated to the accepted id
before any delivery and keeps that value, and `send_to_webhook` catches a
failed delivery with an error log, returns normally, and involves no
state — but the sink-delivery scenario itself never occurs, because the
handler raises the `.slice` AttributeError (line 191) after the state
update and before `send_to_webhook` is reached. -/
theorem C9_sink_failure_isolated (a : Announcement) :
    handle_message PyPrim.none dataFrame7 =
      (PyPrim.int 7, [Effect.logError "handle_message"])
    ∧ send_to_webhook a (Except.error ()) =
        [Effect.webhook (webhookContent a), Effect.logError "send_to_webhook"]
    ∧ send_to_webhook a (Except.ok ()) = [Effect.webhook (webhookContent a)] := by
  refine ⟨by decide, rfl, rfl⟩

/-- C10 claim: starting from the initial empty dedup state, a valid DATA
frame whose successfully parsed payload lacks a catalogId key is filtered
as a duplicate — its parsed id None equals the initial stored None — so
the state is unchanged and no effect (no save, no delivery, no log) is
produced. -/
theorem C10_missing_catalogId (d : PyDict) (ann : Announcement)
    (hk : d.find? (fun p => p.1 == "catalogId") = Option.none)
    (hp : parse_announcement (Except.ok (InnerDoc.dict d)) = some ann) :
    handle_message PyPrim.none
      ⟨PyPrim.str "DATA", PyPrim.str "com_announcement_en",
        Except.ok (InnerDoc.dict d)⟩ = (PyPrim.none, []) := by
  have hcat : ann.catalogId = PyPrim.none := by
    rw [parse_catalogId hp, pyGet_not_found hk]
  have h1 : pyPrimEq (PyPrim.str "DATA") (PyPrim.str "COMMAND") = false := by
    decide
  have h2 : (pyPrimEq (PyPrim.str "DATA") (PyPrim.str "DATA") &&
      pyPrimEq (PyPrim.str "com_announcement_en")
        (PyPrim.str "com_announcement_en")) = true := by decide
  simp [handle_message, handle_message_try, h1, h2, hp, dedupStep, hcat,
    pyPrimEq]

/-- C10 witness: a payload with only a body field parses successfully,
lacks catalogId, and is silently filtered from the initial state. -/
theorem C10_witness :
    handle_message PyPrim.none
      ⟨PyPrim.str "DATA", PyPrim.str "com_announcement_en",
        Except.ok (InnerDoc.dict [("body", PyPrim.str "hi")])⟩ =
      (PyPrim.none, []) :=
  C10_missing_catalogId [("body", PyPrim.str "hi")]
    ⟨PyPrim.none, PyPrim.none, "1970-01-01 00:00:00", PyPrim.none, "hi"⟩
    (by decide) (by decide)

theorem processMsgs_effects_only : ∀ (msgs : List WsMessage) (st : PyPrim),
    (processMsgs st msgs).2.all isEffectAction = true := by
  intro msgs
  induction msgs with
  | nil => intro st; rfl
  | cons m ms ih =>
    intro st
    have hmap : ∀ l : List Effect,
        (l.map TraceAction.effect).all isEffectAction = true := by
      intro l
      induction l with
      | nil => rfl
      | cons e es ihe => simp [isEffectAction, ihe]
    simp [processMsgs, List.all_append, hmap, ih]

/-- C7 counterexample: after the successful connect of the scripted run
[success []] the supervisor sends exactly one text frame, and its bytes
are the Python `json.dumps` output with the default separators — which is
NOT the claimed byte string without spaces. -/
theorem C7_counterexample :
    (connect_and_listen testState [ConnOutcome.success []]).2 =
      [TraceAction.connect, TraceAction.sendText subscribe_message_text,
        TraceAction.sleep 5]
    ∧ subscribe_message_text ≠
        "\x7b\"command\":\"SUBSCRIBE\",\"value\":\"com_announcement_en\"\x7d" := by
  constructor
  · decide
  · decide

/-- C7 amended claim: with a transport failing on the first attempt and
succeeding on the second, the supervisor waits exactly one reconnect
delay between the two attempts, and after the successful connect sends
exactly one subscription command — the single text frame holding the
`json.dumps` serialization of the subscribe object with Python default
separators, i.e. with a space after the colon and comma — before
processing any frame; everything else in the streaming phase is
message-handler effects. -/
theorem C7_supervisor (st : MonitorState) (msgs : List WsMessage) :
    connect_and_listen st [ConnOutcome.fail, ConnOutcome.success msgs] =
      (let p := processMsgs st.last_announcement_id msgs
       (⟨st.api_key, st.api_secret, st.base_url, st.reconnect_delay, p.1,
          st.ping_interval, st.recv_window, st.ping_timeout⟩,
        TraceAction.connect :: TraceAction.sleep st.reconnect_delay ::
          TraceAction.connect :: TraceAction.sendText subscribe_message_text ::
          (p.2 ++ [TraceAction.sleep st.reconnect_delay])))
    ∧ subscribe_message_text =
        "\x7b\"command\": \"SUBSCRIBE\", \"value\": \"com_announcement_en\"\x7d"
    ∧ (processMsgs st.last_announcement_id msgs).2.all isEffectAction = true := by
  refine ⟨rfl, by decide, processMsgs_effects_only msgs st.last_announcement_id⟩

/-- C8 claim: a missing (or empty) API key or secret makes construction
fail with a configuration error before any connection attempt, and the
whole program then performs only the one startup-failure notification —
no connect, no retry; with both credentials present construction
succeeds, producing the documented initial state, and signing is total at
call time with a 64-character digest for every parameter mapping. -/
theorem C8_configuration_fault (apiKey apiSecret : Option String) :
    (apiKey.getD "" = "" ∨ apiSecret.getD "" = "" →
      ∃ e, monitorInit apiKey apiSecret = Except.error e)
    ∧ (apiKey.getD "" = "" ∨ apiSecret.getD "" = "" →
      ∀ attempts, mainRun apiKey apiSecret attempts = [TraceAction.startupNotify])
    ∧ (apiKey.getD "" ≠ "" → apiSecret.getD "" ≠ "" →
      monitorInit apiKey apiSecret = Except.ok
        ⟨apiKey.getD "", apiSecret.getD "", "wss://api.binance.com/sapi/wss",
          5, PyPrim.none, 30, 30000, 60⟩
      ∧ ∀ params, (generate_signature (apiSecret.getD "") params).length = 64) := by
  have herr : apiKey.getD "" = "" ∨ apiSecret.getD "" = "" →
      ∃ e, monitorInit apiKey apiSecret = Except.error e := by
    intro h
    by_cases hk : apiKey.getD "" = ""
    · exact ⟨"BINANCE_API_KEY", by simp [monitorInit, hk]⟩
    · rcases h with h | h
      · exact absurd h hk
      · exact ⟨"BINANCE_SECRET_KEY", by simp [monitorInit, hk, h]⟩
  refine ⟨herr, ?_, ?_⟩
  · intro h attempts
    rcases herr h with ⟨e, he⟩
    simp [mainRun, he]
  · intro hk hs
    refine ⟨by simp [monitorInit, hk, hs], ?_⟩
    intro params
    exact hexDigest_length (hmacSha256_length _ _)

/-- C8 witness: the claim applied with a missing key, and with both
credentials present. -/
theorem C8_witness :
    (∃ e, monitorInit Option.none (some "s") = Except.error e)
    ∧ mainRun Option.none (some "s") [] = [TraceAction.startupNotify]
    ∧ monitorInit (some "k") (some "s") = Except.ok
        ⟨"k", "s", "wss://api.binance.com/sapi/wss", 5, PyPrim.none, 30, 30000, 60⟩
    ∧ (generate_signature "s" []).length = 64 :=
  ⟨(C8_configuration_fault Option.none (some "s")).1 (Or.inl rfl),
   (C8_configuration_fault Option.none (some "s")).2.1 (Or.inl rfl) [],
   ((C8_configuration_fault (some "k") (some "s")).2.2 (by decide) (by decide)).1,
   ((C8_configuration_fault (some "k") (some "s")).2.2 (by decide) (by decide)).2 []⟩
